import Mathlib

/-!
Verification development for the TensorRT-backed network core of openpose
(src/openpose/net/netRT.cpp and include/openpose/net/netRT.hpp).

The C++ class NetRT is shallowly embedded: its PIMPL state becomes the
structure ImplState, device-side effects (cudaMalloc, cudaMemcpy, cudaFree,
context execution) are recorded in an explicit Device trace, and the
op function error, which raises a failure synchronously to the caller,
becomes an error value that aborts the remaining steps of the operation.
The host Array of floats, the plan file as seen through std ifstream, and
the nvinfer engine are modelled by small structures carrying exactly the
observations the code makes of them.
-/

namespace OpNetRT

/-! ### Constants from include/openpose/net/netRT.hpp -/

def NB_BINDINGS : Nat := 2

def INPUT_BLOB_NAME : String := "image"

def OUTPUT_BLOB_NAME : String := "net_output"

def INPUT_IMAGE_NBR_CHANNELS : Int := 3

def INPUT_IMAGE_HEIGHT : Int := 320

def INPUT_IMAGE_WIDTH : Int := 240

def OUTPUT_HEATMAP_NB_CHANNELS : Int := 57

def OUTPUT_HEATMAP_HEIGHT : Int := 40

def OUTPUT_HEATMAP_WIDTH : Int := 30

/-! ### Failure values

The repository function op error (utilities/errorAndLog, outside src/)
reports a failure synchronously to the caller with a message; it is
modelled as the error constructor opError carrying the message string.
cppLengthError models the std length error thrown by the constructor of
std vector of char when handed a negative size converted to size t. -/

inductive OpError where
  | opError (msg : String)
  | cppLengthError
deriving DecidableEq, Repr

/-! ### Device trace

Device records the observable effects of the CUDA calls the code makes:
each cudaMalloc returns a fresh pointer and records the requested byte
size, each cudaFree records the pointer value it was handed (none when
the freed expression reads an uninitialized member, which in C++ is an
indeterminate value), and cudaMemcpy and context execution are counted. -/

abbrev Ptr := Nat

structure Device where
  nextPtr : Ptr
  allocs : List (Ptr × Int)
  frees : List (Option Ptr)
  memcpyCount : Nat
  execCount : Nat
deriving DecidableEq, Repr

def Device.initial : Device :=
  { nextPtr := 1, allocs := [], frees := [], memcpyCount := 0, execCount := 0 }

def cudaMalloc (byteSize : Int) (dev : Device) : Ptr × Device :=
  (dev.nextPtr,
    { dev with
        nextPtr := dev.nextPtr + 1
        allocs := dev.allocs ++ [(dev.nextPtr, byteSize)] })

/-! ### Engine model

An nvinfer engine is observed by the code only through getNbBindings and
getBindingIndex; it is modelled as its binding table, the list of binding
names in slot order. getBindingIndex returns the slot of the name, and -1
when the name is not bound, following the nvinfer1 ICudaEngine API. -/

structure Engine where
  bindings : List String
deriving DecidableEq, Repr

def getBindingIndex (name : String) : List String → Int
  | [] => -1
  | b :: bs =>
      if b = name then 0
      else
        let r := getBindingIndex name bs
        if r = -1 then -1 else r + 1

/-! ### The PIMPL state of NetRT

Fields follow struct NetRT ImplNetRT. Members that C++ leaves
uninitialized until initializationOnThread runs (the blob indices, the
buffers array, the context) are Option valued, none meaning the member
holds an indeterminate value. buffers is a total map from Int because the
code indexes the two slot array with the result of getBindingIndex, which
can be -1. -/

structure Blob where
  shape : List Int
  gpuData : Option Ptr
deriving DecidableEq, Repr

structure ImplState where
  mLastBlobName : String
  mNetInputSize4D : List Int
  context : Option Engine
  inputBlobIndex : Option Int
  outputBlobIndex : Option Int
  buffers : Int → Option Ptr
  spOutputBlob : Option Blob

/-! ### Process-wide logging state

The code declares a process-wide flag initialized to true:
std atomic of bool sGoogleLoggingInitializedRT with initializer true,
guarded by the mutex sMutexNetRT. GlogState carries the flag together
with a counter of calls to google InitGoogleLogging. -/

structure GlogState where
  sGoogleLoggingInitializedRT : Bool
  initGoogleLoggingCount : Nat
deriving DecidableEq, Repr

/-- Process start state: the source initializer of the flag is true. -/
def glogInitialState : GlogState :=
  { sGoogleLoggingInitializedRT := true, initGoogleLoggingCount := 0 }

/-- Constructor of ImplNetRT: checks that the plan file exists, then, when
logging is enabled and the flag is unset, takes the lock, re-checks, calls
InitGoogleLogging and sets the flag (double-checked locking as written in
the source). The fresh state leaves the thread-initialized members
indeterminate. -/
def constructImplNetRT (rtPlan : String) (planExists : Bool)
    (enableGoogleLogging : Bool) (lastBlobName : String) (g : GlogState) :
    Except OpError ImplState × GlogState :=
  if ¬ planExists then
    (.error (.opError ("TensorRT plan not found: " ++ rtPlan)), g)
  else
    let g2 :=
      if enableGoogleLogging ∧ ¬ g.sGoogleLoggingInitializedRT then
        { sGoogleLoggingInitializedRT := true
          initGoogleLoggingCount := g.initGoogleLoggingCount + 1 }
      else g
    (.ok
      { mLastBlobName := lastBlobName
        mNetInputSize4D := []
        context := none
        inputBlobIndex := none
        outputBlobIndex := none
        buffers := fun _ => none
        spOutputBlob := none }, g2)

/-- Destructor of ImplNetRT: unconditionally calls cudaFree on
buffers indexed by inputBlobIndex and then by outputBlobIndex. When the
index member was never initialized, the freed expression reads an
indeterminate value, recorded as a free of none. -/
def cudaFreeSlot (impl : ImplState) (idx : Option Int) (dev : Device) : Device :=
  match idx with
  | none => { dev with frees := dev.frees ++ [none] }
  | some i => { dev with frees := dev.frees ++ [impl.buffers i] }

def destructImplNetRT (impl : ImplState) (dev : Device) : Device :=
  cudaFreeSlot impl impl.outputBlobIndex (cudaFreeSlot impl impl.inputBlobIndex dev)

/-! ### The plan file as seen through std ifstream

The code opens the file with ios binary and ios ate, takes tellg as the
size, seeks back, and reads size bytes. absent models a file that cannot
be opened: the stream has failbit set, so tellg returns -1. file carries
the byte content reported by tellg together with readOk, whether the read
of that many bytes completes in full (false models a short or failed
read, which sets failbit and makes the stream test false). -/

inductive PlanFile where
  | absent
  | file (bytes : List UInt8) (readOk : Bool)
deriving DecidableEq, Repr

structure InitOut where
  err : Option OpError
  impl : ImplState
  dev : Device
  deserialized : Option (List UInt8)

/-- NetRT initializationOnThread. Steps follow the source in order: read
the plan file in full (tellg size, rewind, read); on an unopenable file
tellg yields -1 and the vector of char constructor with that size throws
std length error before the read; a short read fails the stream test and
raises the load error. The byte buffer is handed to the runtime
deserializer (an opaque external step, passed as the function
deserialize); the binding count is checked against NB_BINDINGS; the input
and output slots are resolved from the hardcoded member names
INPUT_BLOB_NAME and OUTPUT_BLOB_NAME; the two device buffers are
allocated at the resolved slots; and the output pointer is wrapped in a
caffe blob of the fixed output shape with no copy. -/
def initializationOnThread (plan : PlanFile) (deserialize : List UInt8 → Engine)
    (impl : ImplState) (dev : Device) : InitOut :=
  match plan with
  | .absent =>
      { err := some .cppLengthError, impl := impl, dev := dev, deserialized := none }
  | .file bytes readOk =>
      if ¬ readOk then
        { err := some (.opError "Could not load tensorrt engine.")
          impl := impl, dev := dev, deserialized := none }
      else
        let engine := deserialize bytes
        if engine.bindings.length ≠ NB_BINDINGS then
          { err := some (.opError "The engine should have 2 binding (One input and one output)")
            impl := { impl with context := some engine }
            dev := dev, deserialized := some bytes }
        else
          let inIdx := getBindingIndex INPUT_BLOB_NAME engine.bindings
          let outIdx := getBindingIndex OUTPUT_BLOB_NAME engine.bindings
          let inBytes := 1 * INPUT_IMAGE_NBR_CHANNELS * INPUT_IMAGE_HEIGHT * INPUT_IMAGE_WIDTH * 4
          let outBytes := 1 * OUTPUT_HEATMAP_NB_CHANNELS * OUTPUT_HEATMAP_HEIGHT * OUTPUT_HEATMAP_WIDTH * 4
          let r1 := cudaMalloc inBytes dev
          let bufs1 : Int → Option Ptr := fun i => if i = inIdx then some r1.1 else impl.buffers i
          let r2 := cudaMalloc outBytes r1.2
          let bufs2 : Int → Option Ptr := fun i => if i = outIdx then some r2.1 else bufs1 i
          let blob : Blob :=
            { shape := [1, OUTPUT_HEATMAP_NB_CHANNELS, OUTPUT_HEATMAP_HEIGHT, OUTPUT_HEATMAP_WIDTH]
              gpuData := bufs2 outIdx }
          { err := none
            impl := { impl with
                        context := some engine
                        inputBlobIndex := some inIdx
                        outputBlobIndex := some outIdx
                        buffers := bufs2
                        spOutputBlob := some blob }
            dev := r2.2
            deserialized := some bytes }

/-! ### The input tensor

The Array of float class lives outside src/. Modelled from the spec: the
code observes only empty, getNumberDimensions, getSize at an index, the
size vector, and the volume, so the tensor is its size vector together
with its emptiness flag. -/

structure ArrayF where
  isEmpty : Bool
  size : List Int
deriving DecidableEq, Repr

/-- std accumulate over the size vector with initial value 1 and
multiplication, as in the source. -/
def listProduct (xs : List Int) : Int := xs.foldl (· * ·) 1

def expectedInputVolume : Int :=
  1 * INPUT_IMAGE_NBR_CHANNELS * INPUT_IMAGE_WIDTH * INPUT_IMAGE_HEIGHT

/-- The message built in the dimension-conflict branch of forwardPass,
concatenated exactly as in the source. -/
def dimensionConflictMsg (size : List Int) : String :=
  let hardcodedSize :=
    "[total size = " ++ toString (1 * INPUT_IMAGE_NBR_CHANNELS * INPUT_IMAGE_WIDTH * INPUT_IMAGE_HEIGHT) ++ "]"
  let inputSizeDetail :=
    "total size = " ++ toString (listProduct size) ++ "[batch size = " ++ toString (size.getD 0 0) ++
    ", channel (RGB) = " ++ toString (size.getD 1 0) ++ ", height = " ++ toString (size.getD 2 0) ++
    ", width = " ++ toString (size.getD 3 0) ++ "]"
  "Dimension conflict " ++ hardcodedSize ++ " vs " ++ inputSizeDetail

structure FwdOut where
  err : Option OpError
  impl : ImplState
  dev : Device

/-- NetRT forwardPass. The three validation checks run in source order and
each failure aborts before any device effect. After validation the shape
bookkeeping is updated when it differs, the tensor is copied host to
device, and the context is executed once; execOk stands for the boolean
the runtime returns from that execution. -/
def forwardPass (inputData : ArrayF) (execOk : Bool)
    (impl : ImplState) (dev : Device) : FwdOut :=
  if inputData.isEmpty then
    { err := some (.opError "The Array inputData cannot be empty.")
      impl := impl, dev := dev }
  else if inputData.size.length ≠ 4 ∨ inputData.size.getD 1 0 ≠ 3 then
    { err := some (.opError "The Array inputData must have 4 dimensions: [batch size, 3 (RGB), height, width].")
      impl := impl, dev := dev }
  else if listProduct inputData.size ≠ expectedInputVolume then
    { err := some (.opError (dimensionConflictMsg inputData.size))
      impl := impl, dev := dev }
  else
    let impl1 :=
      if impl.mNetInputSize4D ≠ inputData.size then
        { impl with mNetInputSize4D := inputData.size }
      else impl
    let dev1 := { dev with memcpyCount := dev.memcpyCount + 1 }
    let dev2 := { dev1 with execCount := dev1.execCount + 1 }
    if ¬ execOk then
      { err := some (.opError "Inference execution failed"), impl := impl1, dev := dev2 }
    else
      { err := none, impl := impl1, dev := dev2 }

/-- NetRT getOutputBlob. The try body returns the stored blob pointer when
the caffe compatibility layer is compiled in (USE_CAFFE) and a null
pointer otherwise; neither branch can fail, so the catch handler, which
would re-raise through op error, is unreachable. The body is kept as a
separate definition so that getOutputBlob mirrors the try and catch
structure of the source. -/
def getOutputBlobBody (useCaffe : Bool) (impl : ImplState) :
    Except OpError (Option Blob) :=
  .ok (if useCaffe then impl.spOutputBlob else none)

def getOutputBlob (useCaffe : Bool) (impl : ImplState) :
    Except OpError (Option Blob) :=
  match getOutputBlobBody useCaffe impl with
  | .ok h => .ok h
  | .error e => .error e

/-- A sample post-construction state used by concrete witnesses. -/
def sampleImpl : ImplState :=
  { mLastBlobName := "net_output"
    mNetInputSize4D := []
    context := none
    inputBlobIndex := none
    outputBlobIndex := none
    buffers := fun _ => none
    spOutputBlob := none }

/-- A sequence of NetRT constructions, threading the process-wide logging
state: each request carries the plan path, whether the plan file exists,
the logging-enable flag, and the output blob name. -/
def runConstructions (reqs : List (String × Bool × Bool × String)) (g : GlogState) :
    GlogState :=
  reqs.foldl (fun g r => (constructImplNetRT r.1 r.2.1 r.2.2.1 r.2.2.2 g).2) g

/-! ### Theorems -/

theorem construct_glog_fixed (rtPlan : String) (planExists enable : Bool)
    (lastBlobName : String) (g : GlogState)
    (hflag : g.sGoogleLoggingInitializedRT = true) :
    (constructImplNetRT rtPlan planExists enable lastBlobName g).2 = g := by
  unfold constructImplNetRT
  split
  · rfl
  · simp [hflag]

theorem runConstructions_glog_fixed (reqs : List (String × Bool × Bool × String))
    (g : GlogState) (hflag : g.sGoogleLoggingInitializedRT = true) :
    runConstructions reqs g = g := by
  induction reqs with
  | nil => rfl
  | cons r rs ih =>
      unfold runConstructions
      rw [List.foldl_cons, construct_glog_fixed r.1 r.2.1 r.2.2.1 r.2.2.2 g hflag]
      exact ih

/-- C1: an input tensor that is empty, or lacks exactly 4 dimensions with
channel dimension 3, or whose element count differs from 1x3x320x240,
makes forwardPass fail with the validation error of the first violated
check, in source order, with the device trace (transfers, executions,
buffers) unchanged; a tensor passing all checks triggers exactly one
host-to-device transfer and exactly one execution. -/
theorem forwardPass_validation_and_single_execution
    (a : ArrayF) (execOk : Bool) (impl : ImplState) (dev : Device) :
    (a.isEmpty = true →
      (forwardPass a execOk impl dev).err =
        some (.opError "The Array inputData cannot be empty.") ∧
      (forwardPass a execOk impl dev).dev = dev) ∧
    (a.isEmpty = false → (a.size.length ≠ 4 ∨ a.size.getD 1 0 ≠ 3) →
      (forwardPass a execOk impl dev).err =
        some (.opError "The Array inputData must have 4 dimensions: [batch size, 3 (RGB), height, width].") ∧
      (forwardPass a execOk impl dev).dev = dev) ∧
    (a.isEmpty = false → a.size.length = 4 → a.size.getD 1 0 = 3 →
      listProduct a.size ≠ expectedInputVolume →
      (forwardPass a execOk impl dev).err =
        some (.opError (dimensionConflictMsg a.size)) ∧
      (forwardPass a execOk impl dev).dev = dev) ∧
    (a.isEmpty = false → a.size.length = 4 → a.size.getD 1 0 = 3 →
      listProduct a.size = expectedInputVolume →
      (forwardPass a execOk impl dev).dev.memcpyCount = dev.memcpyCount + 1 ∧
      (forwardPass a execOk impl dev).dev.execCount = dev.execCount + 1) := by
  refine ⟨?_, ?_, ?_, ?_⟩
  · intro h
    unfold forwardPass
    rw [if_pos h]
    exact ⟨rfl, rfl⟩
  · intro h0 h1
    unfold forwardPass
    rw [if_neg (by simp [h0]), if_pos h1]
    exact ⟨rfl, rfl⟩
  · intro h0 h1 h2 h3
    unfold forwardPass
    rw [if_neg (by simp [h0]),
      if_neg (fun hc => hc.elim (fun hne => hne h1) (fun hne => hne h2)),
      if_pos h3]
    exact ⟨rfl, rfl⟩
  · intro h0 h1 h2 h3
    unfold forwardPass
    rw [if_neg (by simp [h0]),
      if_neg (fun hc => hc.elim (fun hne => hne h1) (fun hne => hne h2)),
      if_neg (fun hc => hc h3)]
    cases execOk <;> simp

theorem forwardPass_validation_and_single_execution_witness :
    ((forwardPass ⟨true, []⟩ true sampleImpl Device.initial).err =
        some (.opError "The Array inputData cannot be empty.") ∧
      (forwardPass ⟨true, []⟩ true sampleImpl Device.initial).dev = Device.initial) ∧
    ((forwardPass ⟨false, [1, 4, 320, 240]⟩ true sampleImpl Device.initial).err =
        some (.opError "The Array inputData must have 4 dimensions: [batch size, 3 (RGB), height, width].") ∧
      (forwardPass ⟨false, [1, 4, 320, 240]⟩ true sampleImpl Device.initial).dev = Device.initial) ∧
    ((forwardPass ⟨false, [2, 3, 320, 240]⟩ true sampleImpl Device.initial).err =
        some (.opError (dimensionConflictMsg [2, 3, 320, 240])) ∧
      (forwardPass ⟨false, [2, 3, 320, 240]⟩ true sampleImpl Device.initial).dev = Device.initial) ∧
    ((forwardPass ⟨false, [1, 3, 320, 240]⟩ true sampleImpl Device.initial).dev.memcpyCount =
        Device.initial.memcpyCount + 1 ∧
      (forwardPass ⟨false, [1, 3, 320, 240]⟩ true sampleImpl Device.initial).dev.execCount =
        Device.initial.execCount + 1) :=
  ⟨(forwardPass_validation_and_single_execution ⟨true, []⟩ true sampleImpl Device.initial).1 rfl,
   (forwardPass_validation_and_single_execution ⟨false, [1, 4, 320, 240]⟩ true sampleImpl
      Device.initial).2.1 rfl (by decide),
   (forwardPass_validation_and_single_execution ⟨false, [2, 3, 320, 240]⟩ true sampleImpl
      Device.initial).2.2.1 rfl (by decide) (by decide) (by decide),
   (forwardPass_validation_and_single_execution ⟨false, [1, 3, 320, 240]⟩ true sampleImpl
      Device.initial).2.2.2 rfl (by decide) (by decide) (by decide)⟩

/-- C2 counterexample: the shared flag sGoogleLoggingInitializedRT is
already true at process start, and a first construction with logging
enabled performs the one-time setup zero times, not once. -/
theorem google_logging_claim_counterexample :
    glogInitialState.sGoogleLoggingInitializedRT = true ∧
    (constructImplNetRT "pose.plan" true true "net_output"
        glogInitialState).2.initGoogleLoggingCount = 0 := by
  exact ⟨rfl, rfl⟩

/-- C2 amended: because the source initializes the shared flag to true,
the guarded double-checked block is unreachable: across any sequence of
constructions the one-time logging setup is performed zero times and the
flag stays true. -/
theorem google_logging_setup_never_performed
    (reqs : List (String × Bool × Bool × String)) :
    (runConstructions reqs glogInitialState).initGoogleLoggingCount = 0 ∧
    (runConstructions reqs glogInitialState).sGoogleLoggingInitializedRT = true := by
  rw [runConstructions_glog_fixed reqs glogInitialState rfl]
  exact ⟨rfl, rfl⟩

/-- C4: when the deserialized engine does not have exactly 2 bindings,
initializationOnThread fails with the binding-count error and the device
trace is unchanged, so no buffer allocation was performed. -/
theorem initialization_binding_count_blocks_allocation
    (bytes : List UInt8) (deserialize : List UInt8 → Engine)
    (impl : ImplState) (dev : Device)
    (h : (deserialize bytes).bindings.length ≠ NB_BINDINGS) :
    (initializationOnThread (.file bytes true) deserialize impl dev).err =
      some (.opError "The engine should have 2 binding (One input and one output)") ∧
    (initializationOnThread (.file bytes true) deserialize impl dev).dev = dev := by
  simp [initializationOnThread, h]

theorem initialization_binding_count_blocks_allocation_witness :
    (initializationOnThread (.file [] true) (fun _ => ⟨["image"]⟩)
        sampleImpl Device.initial).err =
      some (.opError "The engine should have 2 binding (One input and one output)") ∧
    (initializationOnThread (.file [] true) (fun _ => ⟨["image"]⟩)
        sampleImpl Device.initial).dev = Device.initial :=
  initialization_binding_count_blocks_allocation [] (fun _ => ⟨["image"]⟩)
    sampleImpl Device.initial (by decide)

/-- C3 counterexample: constructing with lastBlobName set to
custom_output against an engine binding exactly the names image and
custom_output, initialization succeeds, yet the resolved output slot is
-1 (the lookup of the hardcoded name net_output), not the binding index 1
of the supplied lastBlobName, so the output slot does not equal the
engine binding index of the supplied name. -/
theorem lastBlobName_ignored_counterexample :
    (initializationOnThread (.file [] true) (fun _ => ⟨["image", "custom_output"]⟩)
        { sampleImpl with mLastBlobName := "custom_output" } Device.initial).err = none ∧
    getBindingIndex "custom_output" ["image", "custom_output"] = 1 ∧
    (initializationOnThread (.file [] true) (fun _ => ⟨["image", "custom_output"]⟩)
        { sampleImpl with mLastBlobName := "custom_output" } Device.initial).impl.outputBlobIndex =
      some (-1) ∧
    (initializationOnThread (.file [] true) (fun _ => ⟨["image", "custom_output"]⟩)
        { sampleImpl with mLastBlobName := "custom_output" } Device.initial).impl.outputBlobIndex ≠
      some (getBindingIndex "custom_output" ["image", "custom_output"]) := by
  refine ⟨rfl, by decide, rfl, by decide⟩

/-- C3 amended: the lastBlobName constructor argument is stored in
mLastBlobName but never read by initialization: the output slot is
resolved from the hardcoded member OUTPUT_BLOB_NAME (net_output) and the
input slot from the hardcoded INPUT_BLOB_NAME (image), and changing
mLastBlobName does not change the resolved output slot. -/
theorem output_slot_resolved_from_hardcoded_names
    (bytes : List UInt8) (deserialize : List UInt8 → Engine)
    (impl : ImplState) (dev : Device) (s : String)
    (h2 : (deserialize bytes).bindings.length = NB_BINDINGS) :
    (initializationOnThread (.file bytes true) deserialize impl dev).impl.outputBlobIndex =
      some (getBindingIndex OUTPUT_BLOB_NAME (deserialize bytes).bindings) ∧
    (initializationOnThread (.file bytes true) deserialize impl dev).impl.inputBlobIndex =
      some (getBindingIndex INPUT_BLOB_NAME (deserialize bytes).bindings) ∧
    (initializationOnThread (.file bytes true) deserialize
        { impl with mLastBlobName := s } dev).impl.outputBlobIndex =
      (initializationOnThread (.file bytes true) deserialize impl dev).impl.outputBlobIndex := by
  simp [initializationOnThread, h2]

theorem output_slot_resolved_from_hardcoded_names_witness :
    (initializationOnThread (.file [] true) (fun _ => ⟨["image", "net_output"]⟩)
        sampleImpl Device.initial).impl.outputBlobIndex =
      some (getBindingIndex OUTPUT_BLOB_NAME ["image", "net_output"]) ∧
    (initializationOnThread (.file [] true) (fun _ => ⟨["image", "net_output"]⟩)
        sampleImpl Device.initial).impl.inputBlobIndex =
      some (getBindingIndex INPUT_BLOB_NAME ["image", "net_output"]) ∧
    (initializationOnThread (.file [] true) (fun _ => ⟨["image", "net_output"]⟩)
        { sampleImpl with mLastBlobName := "anything" } Device.initial).impl.outputBlobIndex =
      (initializationOnThread (.file [] true) (fun _ => ⟨["image", "net_output"]⟩)
        sampleImpl Device.initial).impl.outputBlobIndex :=
  output_slot_resolved_from_hardcoded_names [] (fun _ => ⟨["image", "net_output"]⟩)
    sampleImpl Device.initial "anything" (by decide)

/-- C5: destroying a NetRT that was constructed (plan file present) but
whose initializationOnThread never ran performs two releases whose freed
expressions read uninitialized members (recorded as frees of none) while
the allocation trace is empty, so a release operates on a buffer that was
never allocated and the alloc and free counts are 0 and 2, not 1:1. -/
theorem destruction_without_initialization_frees_unallocated :
    ∃ impl : ImplState,
      (constructImplNetRT "pose.plan" true true "net_output" glogInitialState).1 =
        .ok impl ∧
      (destructImplNetRT impl Device.initial).frees = [none, none] ∧
      (destructImplNetRT impl Device.initial).allocs = [] ∧
      ¬ (∀ f ∈ (destructImplNetRT impl Device.initial).frees,
          ∃ p, f = some p ∧ ∃ sz, (p, sz) ∈ (destructImplNetRT impl Device.initial).allocs) := by
  refine ⟨_, rfl, rfl, rfl, fun hall => ?_⟩
  obtain ⟨p, hp, -⟩ := hall none (by constructor)
  exact Option.noConfusion hp

/-- C6: a 4-dimensional channel-3 tensor whose element count differs from
the fixed volume makes forwardPass fail with a message that contains the
expected fixed total (the string 230400) and the actual batch, channel,
height and width values. -/
theorem dimension_conflict_message_contents
    (a : ArrayF) (execOk : Bool) (impl : ImplState) (dev : Device)
    (h0 : a.isEmpty = false) (h1 : a.size.length = 4) (h2 : a.size.getD 1 0 = 3)
    (h3 : listProduct a.size ≠ expectedInputVolume) :
    (forwardPass a execOk impl dev).err =
      some (.opError (dimensionConflictMsg a.size)) ∧
    toString (1 * INPUT_IMAGE_NBR_CHANNELS * INPUT_IMAGE_WIDTH * INPUT_IMAGE_HEIGHT) = "230400" ∧
    dimensionConflictMsg a.size =
      "Dimension conflict " ++
      ("[total size = " ++
        toString (1 * INPUT_IMAGE_NBR_CHANNELS * INPUT_IMAGE_WIDTH * INPUT_IMAGE_HEIGHT) ++ "]") ++
      " vs " ++
      ("total size = " ++ toString (listProduct a.size) ++
        "[batch size = " ++ toString (a.size.getD 0 0) ++
        ", channel (RGB) = " ++ toString (a.size.getD 1 0) ++
        ", height = " ++ toString (a.size.getD 2 0) ++
        ", width = " ++ toString (a.size.getD 3 0) ++ "]") := by
  refine ⟨?_, by decide, rfl⟩
  unfold forwardPass
  rw [if_neg (by simp [h0]),
    if_neg (fun hc => hc.elim (fun hne => hne h1) (fun hne => hne h2)),
    if_pos h3]

theorem dimension_conflict_message_contents_witness :
    (forwardPass ⟨false, [2, 3, 320, 240]⟩ true sampleImpl Device.initial).err =
      some (.opError (dimensionConflictMsg [2, 3, 320, 240])) ∧
    toString (1 * INPUT_IMAGE_NBR_CHANNELS * INPUT_IMAGE_WIDTH * INPUT_IMAGE_HEIGHT) = "230400" ∧
    dimensionConflictMsg [2, 3, 320, 240] =
      "Dimension conflict " ++
      ("[total size = " ++
        toString (1 * INPUT_IMAGE_NBR_CHANNELS * INPUT_IMAGE_WIDTH * INPUT_IMAGE_HEIGHT) ++ "]") ++
      " vs " ++
      ("total size = " ++ toString (listProduct [2, 3, 320, 240]) ++
        "[batch size = " ++ toString (([2, 3, 320, 240] : List Int).getD 0 0) ++
        ", channel (RGB) = " ++ toString (([2, 3, 320, 240] : List Int).getD 1 0) ++
        ", height = " ++ toString (([2, 3, 320, 240] : List Int).getD 2 0) ++
        ", width = " ++ toString (([2, 3, 320, 240] : List Int).getD 3 0) ++ "]") :=
  dimension_conflict_message_contents ⟨false, [2, 3, 320, 240]⟩ true sampleImpl
    Device.initial rfl (by decide) (by decide) (by decide)

/-- C7 counterexample: on a plan file that cannot be opened, tellg reports
-1, so the vector constructor fails with a length error before the read:
initialization fails, but not with the plan-read error, and nothing is
handed to the deserializer. -/
theorem plan_open_failure_not_plan_read_error :
    (initializationOnThread .absent (fun _ => ⟨["image", "net_output"]⟩)
        sampleImpl Device.initial).err = some .cppLengthError ∧
    (initializationOnThread .absent (fun _ => ⟨["image", "net_output"]⟩)
        sampleImpl Device.initial).err ≠
      some (.opError "Could not load tensorrt engine.") ∧
    (initializationOnThread .absent (fun _ => ⟨["image", "net_output"]⟩)
        sampleImpl Device.initial).deserialized = none := by
  refine ⟨rfl, by decide, rfl⟩

/-- C7 amended: the plan is read fully into memory and the whole byte
content is handed to the deserializer; a short or failed read fails with
the plan-read error before any device allocation; a file that cannot be
opened makes the size query yield -1 and initialization fail with the
length error of the negative-sized buffer, before the read, not with the
plan-read error. -/
theorem plan_read_behavior (bytes : List UInt8)
    (deserialize : List UInt8 → Engine) (impl : ImplState) (dev : Device) :
    ((initializationOnThread (.file bytes false) deserialize impl dev).err =
        some (.opError "Could not load tensorrt engine.") ∧
      (initializationOnThread (.file bytes false) deserialize impl dev).dev = dev ∧
      (initializationOnThread (.file bytes false) deserialize impl dev).deserialized = none) ∧
    ((initializationOnThread (.file bytes true) deserialize impl dev).deserialized =
        some bytes) ∧
    ((initializationOnThread .absent deserialize impl dev).err = some .cppLengthError ∧
      (initializationOnThread .absent deserialize impl dev).dev = dev) := by
  refine ⟨⟨rfl, rfl, rfl⟩, ?_, rfl, rfl⟩
  by_cases h : (deserialize bytes).bindings.length = NB_BINDINGS
  · simp [initializationOnThread, h]
  · simp [initializationOnThread, h]

/-- C8: after a successful initialization, getOutputBlob under the caffe
compatibility layer returns the stored wrapper, whose shape is
[1, 57, 40, 30] and whose device memory is exactly the pointer returned
by the output-buffer allocation of that initialization, present in the
allocation trace with the output byte size: no copy intervenes. -/
theorem output_blob_wraps_allocated_device_buffer
    (bytes : List UInt8) (deserialize : List UInt8 → Engine)
    (impl : ImplState) (dev : Device)
    (h2 : (deserialize bytes).bindings.length = NB_BINDINGS) :
    (initializationOnThread (.file bytes true) deserialize impl dev).err = none ∧
    getOutputBlob true (initializationOnThread (.file bytes true) deserialize impl dev).impl =
      .ok (initializationOnThread (.file bytes true) deserialize impl dev).impl.spOutputBlob ∧
    (initializationOnThread (.file bytes true) deserialize impl dev).impl.spOutputBlob =
      some { shape := [1, 57, 40, 30], gpuData := some (dev.nextPtr + 1) } ∧
    (initializationOnThread (.file bytes true) deserialize impl dev).impl.buffers
        (getBindingIndex OUTPUT_BLOB_NAME (deserialize bytes).bindings) =
      some (dev.nextPtr + 1) ∧
    (dev.nextPtr + 1,
        (1 * OUTPUT_HEATMAP_NB_CHANNELS * OUTPUT_HEATMAP_HEIGHT * OUTPUT_HEATMAP_WIDTH * 4 : Int)) ∈
      (initializationOnThread (.file bytes true) deserialize impl dev).dev.allocs := by
  simp [initializationOnThread, h2, getOutputBlob, getOutputBlobBody, cudaMalloc,
    OUTPUT_HEATMAP_NB_CHANNELS, OUTPUT_HEATMAP_HEIGHT, OUTPUT_HEATMAP_WIDTH]

theorem output_blob_wraps_allocated_device_buffer_witness :
    (initializationOnThread (.file [] true) (fun _ => ⟨["image", "net_output"]⟩)
        sampleImpl Device.initial).err = none ∧
    getOutputBlob true (initializationOnThread (.file [] true)
        (fun _ => ⟨["image", "net_output"]⟩) sampleImpl Device.initial).impl =
      .ok (initializationOnThread (.file [] true) (fun _ => ⟨["image", "net_output"]⟩)
        sampleImpl Device.initial).impl.spOutputBlob ∧
    (initializationOnThread (.file [] true) (fun _ => ⟨["image", "net_output"]⟩)
        sampleImpl Device.initial).impl.spOutputBlob =
      some { shape := [1, 57, 40, 30], gpuData := some (Device.initial.nextPtr + 1) } ∧
    (initializationOnThread (.file [] true) (fun _ => ⟨["image", "net_output"]⟩)
        sampleImpl Device.initial).impl.buffers
        (getBindingIndex OUTPUT_BLOB_NAME ["image", "net_output"]) =
      some (Device.initial.nextPtr + 1) ∧
    (Device.initial.nextPtr + 1,
        (1 * OUTPUT_HEATMAP_NB_CHANNELS * OUTPUT_HEATMAP_HEIGHT * OUTPUT_HEATMAP_WIDTH * 4 : Int)) ∈
      (initializationOnThread (.file [] true) (fun _ => ⟨["image", "net_output"]⟩)
        sampleImpl Device.initial).dev.allocs :=
  output_blob_wraps_allocated_device_buffer [] (fun _ => ⟨["image", "net_output"]⟩)
    sampleImpl Device.initial (by decide)

/-- C9: getOutputBlob always returns a value to the caller: it is never an
error, and when the caffe compatibility layer is unavailable it returns
the absent handle. The catch handler of the source, which would re-raise
through the failure reporter, is unreachable because neither branch of
the try body can fail. -/
theorem getOutputBlob_never_fails (useCaffe : Bool) (impl : ImplState) :
    getOutputBlob useCaffe impl = .ok (if useCaffe then impl.spOutputBlob else none) ∧
    getOutputBlob false impl = .ok none :=
  ⟨rfl, rfl⟩

theorem getBindingIndex_of_not_mem (name : String) (bs : List String)
    (h : name ∉ bs) : getBindingIndex name bs = -1 := by
  induction bs with
  | nil => rfl
  | cons b bs ih =>
      rw [List.mem_cons, not_or] at h
      simp [getBindingIndex, Ne.symm h.1, ih h.2]

/-- C10: with exactly two bindings none of which carries the looked-up
name, initialization raises no error at slot resolution: the not-found
result -1 of the name lookup is stored as the slot index and used
directly as the index of the buffer array, whose entry at -1 is written
by the allocation. -/
theorem initialization_no_slot_validation
    (bytes : List UInt8) (deserialize : List UInt8 → Engine)
    (impl : ImplState) (dev : Device)
    (h2 : (deserialize bytes).bindings.length = NB_BINDINGS) :
    ((INPUT_BLOB_NAME ∉ (deserialize bytes).bindings) →
      (initializationOnThread (.file bytes true) deserialize impl dev).err = none ∧
      (initializationOnThread (.file bytes true) deserialize impl dev).impl.inputBlobIndex =
        some (-1) ∧
      (initializationOnThread (.file bytes true) deserialize impl dev).impl.buffers (-1) ≠
        none) ∧
    ((OUTPUT_BLOB_NAME ∉ (deserialize bytes).bindings) →
      (initializationOnThread (.file bytes true) deserialize impl dev).err = none ∧
      (initializationOnThread (.file bytes true) deserialize impl dev).impl.outputBlobIndex =
        some (-1)) := by
  constructor
  · intro hin
    have hidx := getBindingIndex_of_not_mem INPUT_BLOB_NAME ((deserialize bytes).bindings) hin
    refine ⟨by simp [initializationOnThread, h2], by simp [initializationOnThread, h2, hidx], ?_⟩
    simp [initializationOnThread, h2, hidx]
    intro hcontra
    by_cases hc : (-1 : Int) = getBindingIndex OUTPUT_BLOB_NAME (deserialize bytes).bindings
    · rw [if_pos hc] at hcontra
      exact Option.noConfusion hcontra
    · rw [if_neg hc] at hcontra
      exact Option.noConfusion hcontra
  · intro hout
    have hidx := getBindingIndex_of_not_mem OUTPUT_BLOB_NAME ((deserialize bytes).bindings) hout
    exact ⟨by simp [initializationOnThread, h2], by simp [initializationOnThread, h2, hidx]⟩

theorem initialization_no_slot_validation_witness :
    ((initializationOnThread (.file [] true) (fun _ => ⟨["foo", "bar"]⟩)
        sampleImpl Device.initial).err = none ∧
      (initializationOnThread (.file [] true) (fun _ => ⟨["foo", "bar"]⟩)
        sampleImpl Device.initial).impl.inputBlobIndex = some (-1) ∧
      (initializationOnThread (.file [] true) (fun _ => ⟨["foo", "bar"]⟩)
        sampleImpl Device.initial).impl.buffers (-1) ≠ none) ∧
    ((initializationOnThread (.file [] true) (fun _ => ⟨["foo", "bar"]⟩)
        sampleImpl Device.initial).err = none ∧
      (initializationOnThread (.file [] true) (fun _ => ⟨["foo", "bar"]⟩)
        sampleImpl Device.initial).impl.outputBlobIndex = some (-1)) :=
  ⟨(initialization_no_slot_validation [] (fun _ => ⟨["foo", "bar"]⟩)
      sampleImpl Device.initial (by decide)).1 (by decide),
   (initialization_no_slot_validation [] (fun _ => ⟨["foo", "bar"]⟩)
      sampleImpl Device.initial (by decide)).2 (by decide)⟩

end OpNetRT
